import Mathlib

/-!
Verification development for the task-management backend: a shallow
embedding of the validation helpers, response envelope, persistence
models, token issuance and verification, auth middleware, and the auth
and task controllers, followed by theorems settling the specified
claims about them.

Conventions of the embedding:
* request-body fields are `Option String`; `none` models an absent
  (undefined) field, `some ""` models an explicitly supplied empty
  string, and JavaScript truthiness on such a field is `jsTruthy`;
* the document store is a `List` of documents in insertion order, and
  each store-touching operation returns a response together with the
  resulting store;
* string ids model ObjectId values; the cast performed by the ORM on a
  find-by-id throws when the string is not a well-formed id, which the
  embedding models with `Except` (error carries the message of the
  raised cast error);
* cryptographic primitives (bcrypt, JWT signature) are modelled
  symbolically: a hash retains its preimage and salt as constructor
  data, a signed token retains its payload and signing secret, and
  comparison and verification succeed exactly when the library calls
  would.
-/

namespace App

/-- JavaScript truthiness of an optional string field: `undefined` and
the empty string are falsy, every other string is truthy. -/
def jsTruthy : Option String → Bool
  | some s => s != ""
  | none => false

/-- The pattern `x || dflt` applied to an optional string, producing a
string: a truthy supplied value wins, otherwise the fallback. -/
def jsOrStr (v : Option String) (dflt : String) : String :=
  if jsTruthy v then v.getD "" else dflt

/-- The pattern `x || old` where the previous value is itself an
optional string field of a stored document. -/
def jsOrOpt (v : Option String) (old : Option String) : Option String :=
  if jsTruthy v then v else old

/-- Characters allowed by the email regular expression character class,
which excludes whitespace and the at sign. -/
def emailCharOk (c : Char) : Bool := !c.isWhitespace && c != '@'

/-- Split a character list at its first at sign, returning the parts
before and after it, or `none` when no at sign occurs. -/
def splitAtSign : List Char → Option (List Char × List Char)
  | [] => none
  | c :: cs =>
    if c == '@' then some ([], cs)
    else
      match splitAtSign cs with
      | some (a, b) => some (c :: a, b)
      | none => none

/-- The email validator: the regular expression
`[^\s@]+@[^\s@]+\.[^\s@]+` anchored at both ends.  A string matches
exactly when it splits at its single at sign into a nonempty local
part and a domain, all characters drawn from the class above, with a
dot in the domain that is neither its first nor its last character. -/
def validateEmail (email : String) : Bool :=
  match splitAtSign email.toList with
  | some (loc, dom) =>
    !loc.isEmpty && loc.all emailCharOk && dom.all emailCharOk &&
      (dom.drop 1).dropLast.contains '.'
  | none => false

/-- Leading-whitespace removal, one half of `String.trim`. -/
def dropWs : List Char → List Char
  | [] => []
  | c :: cs => if c.isWhitespace then dropWs cs else c :: cs

/-- The character list of a string with leading and trailing
whitespace removed, modelling `s.trim()`. -/
def trimList (cs : List Char) : List Char :=
  (dropWs (dropWs cs.reverse).reverse)

/-- The name validator: a truthy string whose trimmed length is at
least two. -/
def validateName (n : String) : Bool :=
  n != "" && decide (2 ≤ (trimList n.toList).length)

/-- The task-title validator: a truthy string whose trimmed length is
positive. -/
def validateTaskTitle (t : String) : Bool :=
  t != "" && decide (0 < (trimList t.toList).length)

/-- The password validator error list: one message when the password
is shorter than six characters, empty otherwise. -/
def passwordErrors (pw : String) : List String :=
  if pw.length < 6 then ["Password must be at least 6 characters long"] else []

/-- The uniform response envelope: `sendSuccess` produces `ok` with a
status, payload and message; `sendError` produces `err` with a status,
message and optional itemized error list. -/
inductive Resp (α : Type) where
  | ok (status : Nat) (data : α) (message : String)
  | err (status : Nat) (message : String) (errors : Option (List String))
  deriving DecidableEq

/-- A stored password value, modelled symbolically: `plain` is a
plaintext string as supplied by a caller, `hashed` is the bcrypt hash
of a previous value with its salt.  The two constructors are distinct,
reflecting that a bcrypt digest never coincides with its input. -/
inductive PassVal where
  | plain (s : String)
  | hashed (p : PassVal) (salt : Nat)
  deriving DecidableEq

/-- The bcrypt hash call: wraps the current field value with a salt. -/
def bcryptHash (p : PassVal) (salt : Nat) : PassVal := PassVal.hashed p salt

/-- The bcrypt comparison call: succeeds exactly when the stored value
is the hash of the entered plaintext. -/
def bcryptCompare (entered : String) (stored : PassVal) : Bool :=
  match stored with
  | PassVal.hashed (PassVal.plain s) _ => s == entered
  | _ => false

/-- A User document: store id, name, email, password field, and the
ORM dirty flag for the password path, which the pre-save hook
consults via `isModified`. -/
structure User where
  id : String
  name : String
  email : String
  password : PassVal
  passwordModified : Bool
  deriving DecidableEq

/-- The user schema pre-save hook: when the password path is modified,
replace it with its salted bcrypt hash and clear the flag; otherwise
leave the document untouched. -/
def userPreSave (salt : Nat) (u : User) : User :=
  if u.passwordModified then
    { u with password := bcryptHash u.password salt, passwordModified := false }
  else u

/-- Message of the duplicate-key error the store raises when a save
violates the unique index on user emails. -/
def dupKeyErrorMessage (email : String) : String :=
  "E11000 duplicate key error collection: users index: email_1 dup key: " ++ email

/-- Hexadecimal digit test for object-id strings. -/
def hexDigit (c : Char) : Bool :=
  c.isDigit || ('a' ≤ c && c ≤ 'f') || ('A' ≤ c && c ≤ 'F')

/-- Well-formedness of an id string under the ORM cast: a 12-character
string or a 24-character hexadecimal string casts to an ObjectId;
anything else raises a cast error. -/
def isValidObjectId (s : String) : Bool :=
  s.length == 12 || (s.length == 24 && s.toList.all hexDigit)

/-- Message of the cast error raised when a user find-by-id receives a
string that is not a well-formed id. -/
def castErrUser (id : String) : String :=
  "Cast to ObjectId failed for value " ++ id ++ " at path _id for model User"

/-- Message of the cast error raised when a task find-by-id receives a
string that is not a well-formed id. -/
def castErrTask (id : String) : String :=
  "Cast to ObjectId failed for value " ++ id ++ " at path _id for model Task"

/-- The user find-by-id query: raises a cast error on a malformed id,
otherwise returns the first stored user with that id, if any. -/
def userFindById (store : List User) (id : String) : Except String (Option User) :=
  if isValidObjectId id then Except.ok (store.find? (fun u => u.id == id))
  else Except.error (castErrUser id)

/-- The user save: the unique index on email rejects the save when
another stored user has the same email; otherwise the pre-save hook
runs and the document is written back (replacing the document with the
same id, or appended when new).  Returns the new store and the saved
document. -/
def userSave (store : List User) (u : User) (salt : Nat) :
    Except String (List User × User) :=
  if store.any (fun v => v.email == u.email && v.id != u.id) then
    Except.error (dupKeyErrorMessage u.email)
  else
    let u2 := userPreSave salt u
    if store.any (fun v => v.id == u.id) then
      Except.ok (store.map (fun v => if v.id == u.id then u2 else v), u2)
    else
      Except.ok (store ++ [u2], u2)

/-- A signed JWT, modelled symbolically: the embedded user id, the
secret it was signed with, and the issued-at and expiry timestamps in
seconds. -/
structure Token where
  id : String
  secret : String
  iat : Nat
  exp : Nat
  deriving DecidableEq

/-- A token-shaped value arriving in a request: either a structurally
valid signed token or a malformed string that fails to parse. -/
inductive TokenVal where
  | valid (t : Token)
  | malformed (raw : String)
  deriving DecidableEq

/-- Process configuration surface used by the token code: the optional
signing secret from the environment. -/
structure Config where
  jwtSecret : Option String
  deriving DecidableEq

/-- Thirty days in seconds, the fixed token lifetime. -/
def thirtyDays : Nat := 30 * 24 * 60 * 60

/-- The token issuer: signs the id with the configured secret, falling
back to the hardcoded default when the environment variable is unset
or empty (the `JWT_SECRET || "default_secret"` pattern), with a
thirty-day expiry. -/
def generateToken (cfg : Config) (now : Nat) (id : String) : Token :=
  { id := id
    secret :=
      match cfg.jwtSecret with
      | some s => if s != "" then s else "default_secret"
      | none => "default_secret"
    iat := now
    exp := now + thirtyDays }

/-- The verification call used by the middleware: `jwt.verify` with
the raw environment value (no fallback).  It throws — modelled as
`none` — when the secret is unset or empty, when the token word is
absent or malformed, when the signature does not match the secret, or
when the token is expired; otherwise it returns the embedded id. -/
def jwtVerify (tok : Option TokenVal) (secret : Option String) (now : Nat) :
    Option String :=
  match secret with
  | none => none
  | some s =>
    if s == "" then none
    else
      match tok with
      | some (TokenVal.valid t) =>
        if t.secret == s && now < t.exp then some t.id else none
      | _ => none

/-- The user record attached to the request context by the middleware:
the find-by-id runs with `select("-password")`, so the password field
is absent. -/
structure SafeUser where
  id : String
  name : String
  email : String
  deriving DecidableEq

/-- Projection of a stored user to its password-free form. -/
def toSafeUser (u : User) : SafeUser :=
  { id := u.id, name := u.name, email := u.email }

/-- Outcome of the auth middleware: an error response sent without
invoking the handler, or control passed to the handler with the value
stored in the request user field (which is empty when the id lookup
found no user). -/
inductive ProtectResult where
  | err (status : Nat) (message : String)
  | proceed (user : Option SafeUser)
  deriving DecidableEq

/-- Character-list test that one list starts with another, used to
model `String.startsWith`. -/
def leadsWith : List Char → List Char → Bool
  | [], _ => true
  | _ :: _, [] => false
  | a :: as, b :: bs => a == b && leadsWith as bs

/-- The `authorization.startsWith("Bearer")` check, applied to the
scheme word of the header. -/
def startsWithBearer (s : String) : Bool :=
  leadsWith "Bearer".toList s.toList

/-- The auth middleware.  A request carries an optional Authorization
header, modelled as its first word (the scheme) and the optional
second word (the token, as parsed by `split(" ")[1]`).  When the
header is absent or its scheme does not start with Bearer, the
middleware sends the no-token error.  Otherwise it verifies the token
and looks up the embedded id inside one try block: a verification
failure, and equally a cast error from a malformed embedded id, is
caught and sent as the token-failed error; otherwise the lookup result
(possibly empty) is attached and the handler is invoked. -/
def protect (cfg : Config) (now : Nat) (store : List User)
    (hdr : Option (String × Option TokenVal)) : ProtectResult :=
  match hdr with
  | none => ProtectResult.err 401 "Not authorized, no token"
  | some (scheme, tokWord) =>
    if startsWithBearer scheme then
      match jwtVerify tokWord cfg.jwtSecret now with
      | none => ProtectResult.err 401 "Not authorized, token failed"
      | some id =>
        match userFindById store id with
        | Except.error _ => ProtectResult.err 401 "Not authorized, token failed"
        | Except.ok mu => ProtectResult.proceed (mu.map toSafeUser)
    else ProtectResult.err 401 "Not authorized, no token"

/-- A Task document: store id, owning user id, title, optional
description, status string, and creation timestamp. -/
structure Task where
  id : String
  user : String
  title : String
  description : Option String
  status : String
  createdAt : Nat
  deriving DecidableEq

/-- A task request body: the three destructured fields, plus a
possible owner field that the controllers never read. -/
structure TaskBody where
  title : Option String
  description : Option String
  status : Option String
  user : Option String
  deriving DecidableEq

/-- The three admissible status values. -/
def statusEnum : List String := ["pending", "in_progress", "completed"]

/-- The task find-by-id query: raises a cast error on a malformed id,
otherwise returns the first stored task with that id, if any. -/
def taskFindById (store : List Task) (id : String) : Except String (Option Task) :=
  if isValidObjectId id then Except.ok (store.find? (fun t => t.id == id))
  else Except.error (castErrTask id)

/-- Newest-first ordering on tasks by creation timestamp, the
`sort(createdAt: -1)` relation. -/
def taskNewer (a b : Task) : Prop := b.createdAt ≤ a.createdAt

instance : DecidableRel taskNewer := fun a b => Nat.decLe b.createdAt a.createdAt

instance : IsTotal Task taskNewer :=
  ⟨fun a b => Nat.le_total b.createdAt a.createdAt⟩

instance : IsTrans Task taskNewer :=
  ⟨fun _ _ _ h1 h2 => Nat.le_trans h2 h1⟩

/-- ASCII lowercasing of a character, modelling the case folding done
by the case-insensitive regex option. -/
def toLow (c : Char) : Char :=
  if 'A' ≤ c && c ≤ 'Z' then Char.ofNat (c.toNat + 32) else c

/-- The characters with a special meaning in the regex dialect the
search string is handed to. -/
def regexMetaChars : List Char :=
  ['.', '^', '$', '*', '+', '?', '(', ')', '[', ']', '\\', '|', '\x7b', '\x7d']

/-- Anchored-at-start regex matching for the fragment of patterns the
search strings of interest fall in — literal characters and the dot
wildcard — under the case-insensitive option: the dot matches any
character, every other pattern character matches case-insensitively. -/
def matchHere : List Char → List Char → Bool
  | [], _ => true
  | _ :: _, [] => false
  | p :: ps, c :: cs => (p == '.' || toLow p == toLow c) && matchHere ps cs

/-- Unanchored regex search: the pattern matches at some position of
the text. -/
def rsearch : List Char → List Char → Bool
  | ps, [] => matchHere ps []
  | ps, c :: cs => matchHere ps (c :: cs) || rsearch ps cs

/-- The `$regex: search, $options: "i"` test applied to a document
field. -/
def regexTestCI (pattern text : String) : Bool :=
  rsearch pattern.toList text.toList

/-- Case-insensitive substring containment — the relation the
specification words describe.  Defined from the specification, not the
source, for comparison with the regex-based filter the source runs. -/
def occursIn : List Char → List Char → Bool
  | ps, [] => ps.isEmpty
  | ps, c :: cs => leadsWith ps (c :: cs) || occursIn ps cs

/-- Case-insensitive substring containment of one string in another,
the specification-side reading of the search filter. -/
def ciContains (needle hay : String) : Bool :=
  occursIn (needle.toList.map toLow) (hay.toList.map toLow)

/-- The keyword clause of the list query: the search pattern is tested
against the title and the description; a document without a
description field does not match the description clause. -/
def taskMatchesKeyword (s : String) (t : Task) : Bool :=
  regexTestCI s t.title ||
    (match t.description with
     | some d => regexTestCI s d
     | none => false)

/-- The document filter the list query builds: owner equality, the
keyword clause when a truthy search parameter was supplied, and exact
status equality when a truthy status parameter was supplied. -/
def taskQueryFilter (user : SafeUser) (qsearch qstatus : Option String)
    (t : Task) : Bool :=
  t.user == user.id &&
    (if jsTruthy qsearch then taskMatchesKeyword (qsearch.getD "") t else true) &&
    (if jsTruthy qstatus then t.status == qstatus.getD "" else true)

/-- The list returned by the list endpoint: the filtered store sorted
newest first. -/
def getTasksList (user : SafeUser) (qsearch qstatus : Option String)
    (store : List Task) : List Task :=
  List.insertionSort taskNewer (store.filter (taskQueryFilter user qsearch qstatus))

/-- The list endpoint: always responds 200 with the filtered, sorted
tasks of the acting user. -/
def getTasks (user : SafeUser) (qsearch qstatus : Option String)
    (store : List Task) : Resp (List Task) :=
  Resp.ok 200 (getTasksList user qsearch qstatus store) "Tasks retrieved successfully"

/-- The get-by-id endpoint: a cast error is caught as a 500; a found
task owned by the acting user is returned; a missing task and a task
with a different owner produce the same 404 error. -/
def getTaskById (user : SafeUser) (idStr : String) (store : List Task) : Resp Task :=
  match taskFindById store idStr with
  | Except.error e => Resp.err 500 "Server error" (some [e])
  | Except.ok (some t) =>
    if t.user == user.id then Resp.ok 200 t "Task retrieved successfully"
    else Resp.err 404 "Task not found or not authorized" none
  | Except.ok none => Resp.err 404 "Task not found or not authorized" none

/-- Validation errors of the create endpoint: the title must be
supplied, truthy and non-blank; a truthy status must be one of the
enum values. -/
def createTaskErrors (b : TaskBody) : List String :=
  (if !jsTruthy b.title || !validateTaskTitle (b.title.getD "") then
     ["Title is required and must not be empty"] else []) ++
  (if jsTruthy b.status && !statusEnum.contains (b.status.getD "") then
     ["Status must be one of: pending, in_progress, completed"] else [])

/-- The document the create endpoint builds: the owner is the acting
user from the verified token, the status defaults to pending when the
body supplies none (or a falsy one). -/
def createdTaskDoc (user : SafeUser) (b : TaskBody) (newId : String)
    (now : Nat) : Task :=
  { id := newId
    user := user.id
    title := b.title.getD ""
    description := b.description
    status := jsOrStr b.status "pending"
    createdAt := now }

/-- The create endpoint: on validation failure a 400 with the itemized
errors and an unchanged store; otherwise the new document is saved and
returned with a 201. -/
def createTask (user : SafeUser) (b : TaskBody) (newId : String) (now : Nat)
    (store : List Task) : Resp Task × List Task :=
  let errs := createTaskErrors b
  if errs.isEmpty then
    let task := createdTaskDoc user b newId now
    (Resp.ok 201 task "Task created successfully", store ++ [task])
  else (Resp.err 400 "Validation failed" (some errs), store)

/-- Validation errors of the update endpoint: a truthy title must be
non-blank; a truthy status must be one of the enum values. -/
def updateTaskErrors (b : TaskBody) : List String :=
  (if jsTruthy b.title && !validateTaskTitle (b.title.getD "") then
     ["Title must not be empty"] else []) ++
  (if jsTruthy b.status && !statusEnum.contains (b.status.getD "") then
     ["Status must be one of: pending, in_progress, completed"] else [])

/-- The document an update writes back: each field falls back to its
previous value when the supplied one is falsy (the `x || task.x`
pattern); id, owner and creation timestamp are untouched. -/
def updatedTaskDoc (b : TaskBody) (t : Task) : Task :=
  { t with
    title := jsOrStr b.title t.title
    description := jsOrOpt b.description t.description
    status := jsOrStr b.status t.status }

/-- The update endpoint: validation first (400 on failure), then the
find-by-id (500 on cast error), then the combined existence and
ownership check (404 on failure); on success the merged document is
saved back and returned. -/
def updateTask (user : SafeUser) (idStr : String) (b : TaskBody)
    (store : List Task) : Resp Task × List Task :=
  let errs := updateTaskErrors b
  if errs.isEmpty then
    match taskFindById store idStr with
    | Except.error e => (Resp.err 500 "Server error" (some [e]), store)
    | Except.ok (some t) =>
      if t.user == user.id then
        let t2 := updatedTaskDoc b t
        (Resp.ok 200 t2 "Task updated successfully",
          store.map (fun x => if x.id == t.id then t2 else x))
      else (Resp.err 404 "Task not found or not authorized" none, store)
    | Except.ok none => (Resp.err 404 "Task not found or not authorized" none, store)
  else (Resp.err 400 "Validation failed" (some errs), store)

/-- The delete endpoint: find-by-id (500 on cast error), combined
existence and ownership check (404 on failure), then the document is
removed and a null-data 200 returned. -/
def deleteTask (user : SafeUser) (idStr : String) (store : List Task) :
    Resp Unit × List Task :=
  match taskFindById store idStr with
  | Except.error e => (Resp.err 500 "Server error" (some [e]), store)
  | Except.ok (some t) =>
    if t.user == user.id then
      (Resp.ok 200 () "Task deleted successfully",
        store.filter (fun x => !(x.id == t.id)))
    else (Resp.err 404 "Task not found or not authorized" none, store)
  | Except.ok none => (Resp.err 404 "Task not found or not authorized" none, store)

/-- The payload the auth endpoints return: id, name, email, token. -/
structure AuthPayload where
  id : String
  name : String
  email : String
  token : Token
  deriving DecidableEq

/-- A registration request body. -/
structure RegisterBody where
  name : Option String
  email : Option String
  password : Option String
  deriving DecidableEq

/-- Validation errors of the register endpoint: name, email, and
password are each required and checked with the shared validators. -/
def registerErrors (b : RegisterBody) : List String :=
  (if !jsTruthy b.name || !validateName (b.name.getD "") then
     ["Name must be at least 2 characters long"] else []) ++
  (if !jsTruthy b.email || !validateEmail (b.email.getD "") then
     ["Please provide a valid email address"] else []) ++
  (if !jsTruthy b.password then ["Password is required"]
   else passwordErrors (b.password.getD ""))

/-- The register endpoint: validation (400), duplicate-email guard via
a find-one on the email (400 conflict), then the user is created —
the pre-save hook hashing the password — a token is issued for the
new id, and a 201 returned.  A save failure is caught as a 500. -/
def registerUser (cfg : Config) (now : Nat) (store : List User)
    (b : RegisterBody) (newId : String) (salt : Nat) :
    Resp AuthPayload × List User :=
  let errs := registerErrors b
  if errs.isEmpty then
    match store.find? (fun u => u.email == b.email.getD "") with
    | some _ => (Resp.err 400 "Email is already registered" none, store)
    | none =>
      let doc : User :=
        { id := newId, name := b.name.getD "", email := b.email.getD ""
          password := PassVal.plain (b.password.getD ""), passwordModified := true }
      match userSave store doc salt with
      | Except.error e => (Resp.err 500 "Server error" (some [e]), store)
      | Except.ok (store2, u) =>
        (Resp.ok 201
          { id := u.id, name := u.name, email := u.email
            token := generateToken cfg now u.id }
          "User registered successfully", store2)
  else (Resp.err 400 "Validation failed" (some errs), store)

/-- A login request body. -/
structure LoginBody where
  email : Option String
  password : Option String
  deriving DecidableEq

/-- The login endpoint: both fields required (400), then a find-one on
the email and a bcrypt comparison; a missing user and a mismatching
password produce the identical generic 401. -/
def loginUser (cfg : Config) (now : Nat) (store : List User) (b : LoginBody) :
    Resp AuthPayload :=
  if !jsTruthy b.email || !jsTruthy b.password then
    Resp.err 400 "Email and password are required" none
  else
    match store.find? (fun u => u.email == b.email.getD "") with
    | some u =>
      if bcryptCompare (b.password.getD "") u.password then
        Resp.ok 200
          { id := u.id, name := u.name, email := u.email
            token := generateToken cfg now u.id }
          "Login successful"
      else Resp.err 401 "Invalid email or password" none
    | none => Resp.err 401 "Invalid email or password" none

/-- A profile-update request body. -/
structure ProfileBody where
  name : Option String
  email : Option String
  password : Option String
  deriving DecidableEq

/-- Validation errors of the profile-update endpoint: each field is
checked only when supplied truthy. -/
def profileErrors (b : ProfileBody) : List String :=
  (if jsTruthy b.name && !validateName (b.name.getD "") then
     ["Name must be at least 2 characters long"] else []) ++
  (if jsTruthy b.email && !validateEmail (b.email.getD "") then
     ["Please provide a valid email address"] else []) ++
  (if jsTruthy b.password then passwordErrors (b.password.getD "") else [])

/-- The document the profile update assigns before saving: name and
email fall back to their previous values when falsy; the password is
assigned — marking the path modified — only when supplied truthy. -/
def profileUpdatedUser (b : ProfileBody) (u : User) : User :=
  let u1 := { u with name := jsOrStr b.name u.name, email := jsOrStr b.email u.email }
  if jsTruthy b.password then
    { u1 with password := PassVal.plain (b.password.getD ""), passwordModified := true }
  else u1

/-- The profile-update endpoint: the acting id (from the middleware)
is looked up (500 on cast error, 404 when missing), supplied fields
are validated (400), the document is mutated and saved — the unique
email index can reject the save, surfacing as a catch-all 500 — and
on success a fresh token is issued and a 200 returned.  No duplicate
check precedes the save. -/
def updateUserProfile (cfg : Config) (now : Nat) (store : List User)
    (actingId : String) (b : ProfileBody) (salt : Nat) :
    Resp AuthPayload × List User :=
  match userFindById store actingId with
  | Except.error e => (Resp.err 500 "Server error" (some [e]), store)
  | Except.ok none => (Resp.err 404 "User not found" none, store)
  | Except.ok (some user) =>
    let errs := profileErrors b
    if errs.isEmpty then
      match userSave store (profileUpdatedUser b user) salt with
      | Except.error e => (Resp.err 500 "Server error" (some [e]), store)
      | Except.ok (store2, u) =>
        (Resp.ok 200
          { id := u.id, name := u.name, email := u.email
            token := generateToken cfg now u.id }
          "Profile updated successfully", store2)
    else (Resp.err 400 "Validation failed" (some errs), store)

/-- Whether a request carries an Authorization header whose scheme
word starts with Bearer. -/
def bearerHeaderPresent (hdr : Option (String × Option TokenVal)) : Bool :=
  match hdr with
  | some (scheme, _) => startsWithBearer scheme
  | none => false

/-- The token word of the Authorization header, when present. -/
def headerTokenWord (hdr : Option (String × Option TokenVal)) : Option TokenVal :=
  match hdr with
  | some (_, w) => w
  | none => none

/-! Helper lemmas about the regex fragment: on a pattern free of the
dot wildcard, anchored matching is case-folded prefix comparison and
unanchored search is case-folded substring containment. -/

theorem matchHere_eq_leadsWith (ps : List Char) (h : ∀ c ∈ ps, c ≠ '.') :
    ∀ cs, matchHere ps cs = leadsWith (ps.map toLow) (cs.map toLow) := by
  induction ps with
  | nil => intro cs; cases cs <;> rfl
  | cons p ps ih =>
    intro cs
    cases cs with
    | nil => rfl
    | cons c cs =>
      have hp : (p == '.') = false := by
        have hne := h p (List.mem_cons_self p ps)
        simp [hne]
      simp [matchHere, leadsWith, hp,
        ih (fun c hc => h c (List.mem_cons_of_mem _ hc)) cs]

theorem rsearch_eq_occursIn (ps : List Char) (h : ∀ c ∈ ps, c ≠ '.') :
    ∀ cs, rsearch ps cs = occursIn (ps.map toLow) (cs.map toLow) := by
  intro cs
  induction cs with
  | nil =>
    cases ps with
    | nil => rfl
    | cons p ps => rfl
  | cons c cs ih =>
    simp only [rsearch, occursIn, List.map_cons,
      matchHere_eq_leadsWith ps h (c :: cs), List.map_cons, ih]

theorem taskMatchesKeyword_eq_ciContains (s : String) (t : Task)
    (h : ∀ c ∈ s.toList, c ∉ regexMetaChars) :
    taskMatchesKeyword s t =
      (ciContains s t.title || t.description.elim false (fun d => ciContains s d)) := by
  have hdot : ∀ c ∈ s.toList, c ≠ '.' := by
    intro c hc he
    exact h c hc (by simp [he, regexMetaChars])
  have key : ∀ txt : String, regexTestCI s txt = ciContains s txt := by
    intro txt
    unfold regexTestCI ciContains
    exact rsearch_eq_occursIn s.toList hdot txt.toList
  unfold taskMatchesKeyword
  rw [key t.title]
  cases ht : t.description with
  | none => rfl
  | some d =>
    show (ciContains s t.title || regexTestCI s d)
        = (ciContains s t.title || ciContains s d)
    rw [key d]

/-- Claim C4 counterexample: the search string is handed to the store
as a raw regular-expression pattern, not escaped.  With the store
holding a single task titled abc owned by the acting user, the list
request with search a.c returns that task, although a.c is not a
case-insensitive substring of abc (nor of the absent description) —
so the claimed substring semantics fails for search strings containing
regex metacharacters. -/
theorem c4_counterexample :
    getTasks ⟨"aaaaaaaaaaaaaaaaaaaaaaaa", "A", "a@x.com"⟩ (some "a.c") none
        [⟨"cccccccccccccccccccccccc", "aaaaaaaaaaaaaaaaaaaaaaaa", "abc", none, "pending", 5⟩]
      = Resp.ok 200
          [⟨"cccccccccccccccccccccccc", "aaaaaaaaaaaaaaaaaaaaaaaa", "abc", none, "pending", 5⟩]
          "Tasks retrieved successfully"
    ∧ ciContains "a.c" "abc" = false := by decide

/-- Claim C4, amended: for every search string free of regex
metacharacters (and truthy, and with a truthy status parameter when
one is supplied), the list endpoint responds 200 with exactly the
acting user tasks whose title or description contains the search
string as a case-insensitive substring, intersected with the exact
status filter, ordered by creation time newest first.  For a search
string with metacharacters the filter is instead raw regex matching
(see the counterexample). -/
theorem c4_list_filter_amended (user : SafeUser) (store : List Task)
    (s : String) (qstatus : Option String)
    (hmeta : ∀ c ∈ s.toList, c ∉ regexMetaChars)
    (hne : s ≠ "")
    (hst : ∀ v, qstatus = some v → v ≠ "") :
    getTasks user (some s) qstatus store
      = Resp.ok 200 (getTasksList user (some s) qstatus store)
          "Tasks retrieved successfully"
    ∧ (getTasksList user (some s) qstatus store).Perm
        (store.filter (fun t =>
          t.user == user.id &&
          (ciContains s t.title || t.description.elim false (fun d => ciContains s d)) &&
          qstatus.elim true (fun v => t.status == v)))
    ∧ List.Sorted taskNewer (getTasksList user (some s) qstatus store) := by
  refine ⟨rfl, ?_, List.sorted_insertionSort taskNewer _⟩
  unfold getTasksList
  have hfe : store.filter (taskQueryFilter user (some s) qstatus)
      = store.filter (fun t =>
          t.user == user.id &&
          (ciContains s t.title || t.description.elim false (fun d => ciContains s d)) &&
          qstatus.elim true (fun v => t.status == v)) := by
    apply List.filter_congr
    intro t _
    unfold taskQueryFilter
    have hts : jsTruthy (some s) = true := by simp [jsTruthy, hne]
    rw [hts]
    simp only [if_true, Option.getD_some, taskMatchesKeyword_eq_ciContains s t hmeta]
    cases qstatus with
    | none => simp [jsTruthy]
    | some v =>
      have hv : jsTruthy (some v) = true := by simp [jsTruthy, hst v rfl]
      rw [hv]
      simp
  rw [hfe]
  exact List.perm_insertionSort taskNewer _

/-- Claim C4 witness: the amended list theorem applied at the search
string foo with a status filter, on a store with one matching task. -/
theorem c4_list_filter_amended_witness :
    getTasks ⟨"aaaaaaaaaaaaaaaaaaaaaaaa", "A", "a@x.com"⟩ (some "foo") (some "pending")
        [⟨"cccccccccccccccccccccccc", "aaaaaaaaaaaaaaaaaaaaaaaa", "xxFOOzz", none, "pending", 1⟩]
      = Resp.ok 200
          (getTasksList ⟨"aaaaaaaaaaaaaaaaaaaaaaaa", "A", "a@x.com"⟩ (some "foo") (some "pending")
            [⟨"cccccccccccccccccccccccc", "aaaaaaaaaaaaaaaaaaaaaaaa", "xxFOOzz", none, "pending", 1⟩])
          "Tasks retrieved successfully" :=
  (c4_list_filter_amended ⟨"aaaaaaaaaaaaaaaaaaaaaaaa", "A", "a@x.com"⟩
    [⟨"cccccccccccccccccccccccc", "aaaaaaaaaaaaaaaaaaaaaaaa", "xxFOOzz", none, "pending", 1⟩]
    "foo" (some "pending") (by decide) (by decide)
    (by intro v hv; simp at hv; subst hv; decide)).1

/-- Claim C1 counterexample: an update by a non-owner addressed to the
task of another user does not always produce the 404 error — field
validation runs first, so a body with a blank title yields a 400
validation error instead (the store is still left unchanged). -/
theorem c1_counterexample :
    updateTask ⟨"bbbbbbbbbbbbbbbbbbbbbbbb", "B", "b@x.com"⟩ "cccccccccccccccccccccccc"
        ⟨some " ", none, none, none⟩
        [⟨"cccccccccccccccccccccccc", "aaaaaaaaaaaaaaaaaaaaaaaa", "T1", none, "pending", 0⟩]
      = (Resp.err 400 "Validation failed" (some ["Title must not be empty"]),
         [⟨"cccccccccccccccccccccccc", "aaaaaaaaaaaaaaaaaaaaaaaa", "T1", none, "pending", 0⟩])
    ∧ (Resp.err 400 "Validation failed" (some ["Title must not be empty"]) : Resp Task)
        ≠ Resp.err 404 "Task not found or not authorized" none := by decide

/-- Claim C1, amended: for every task in the store and every request
authenticated as a user other than its owner, the list never returns
that task, get-by-id and delete respond with the 404
not-found-or-not-authorized error, update responds with that 404 when
the body passes field validation and with the 400 validation error
otherwise, and in every case the store — hence the task — is left
unchanged. -/
theorem c1_ownership_isolation_amended (actor : SafeUser) (t : Task)
    (idStr : String) (store : List Task)
    (hfind : taskFindById store idStr = Except.ok (some t))
    (howner : t.user ≠ actor.id) :
    (∀ qsearch qstatus, t ∉ getTasksList actor qsearch qstatus store)
    ∧ getTaskById actor idStr store = Resp.err 404 "Task not found or not authorized" none
    ∧ (∀ b, updateTask actor idStr b store =
        ((if updateTaskErrors b = [] then
            Resp.err 404 "Task not found or not authorized" none
          else Resp.err 400 "Validation failed" (some (updateTaskErrors b))), store))
    ∧ deleteTask actor idStr store
        = (Resp.err 404 "Task not found or not authorized" none, store) := by
  unfold taskFindById at hfind
  split at hfind
  case isFalse => cases hfind
  case isTrue hv =>
    have hfq : store.find? (fun x => x.id == idStr) = some t := by
      injection hfind
    have hbeq : (t.user == actor.id) = false := by simp [howner]
    refine ⟨?_, ?_, ?_, ?_⟩
    · intro qs qst ht
      unfold getTasksList at ht
      have h1 : t ∈ store.filter (taskQueryFilter actor qs qst) :=
        (List.mem_insertionSort taskNewer).mp ht
      have h2 := (List.mem_filter.mp h1).2
      unfold taskQueryFilter at h2
      rw [hbeq] at h2
      simp at h2
    · simp [getTaskById, taskFindById, hv, hfq, hbeq]
    · intro b
      cases hl : updateTaskErrors b with
      | nil => simp [updateTask, hl, taskFindById, hv, hfq, hbeq]
      | cons e es => simp [updateTask, hl, taskFindById, hv, hfq, hbeq]
    · simp [deleteTask, taskFindById, hv, hfq, hbeq]

/-- Claim C1 witness: the amended isolation theorem applied to a
concrete store with one task of user A and a request by user B. -/
theorem c1_ownership_isolation_amended_witness :
    getTaskById ⟨"bbbbbbbbbbbbbbbbbbbbbbbb", "B", "b@x.com"⟩ "cccccccccccccccccccccccc"
        [⟨"cccccccccccccccccccccccc", "aaaaaaaaaaaaaaaaaaaaaaaa", "T1", none, "pending", 0⟩]
      = Resp.err 404 "Task not found or not authorized" none
    ∧ deleteTask ⟨"bbbbbbbbbbbbbbbbbbbbbbbb", "B", "b@x.com"⟩ "cccccccccccccccccccccccc"
        [⟨"cccccccccccccccccccccccc", "aaaaaaaaaaaaaaaaaaaaaaaa", "T1", none, "pending", 0⟩]
      = (Resp.err 404 "Task not found or not authorized" none,
         [⟨"cccccccccccccccccccccccc", "aaaaaaaaaaaaaaaaaaaaaaaa", "T1", none, "pending", 0⟩]) :=
  ⟨(c1_ownership_isolation_amended ⟨"bbbbbbbbbbbbbbbbbbbbbbbb", "B", "b@x.com"⟩
      ⟨"cccccccccccccccccccccccc", "aaaaaaaaaaaaaaaaaaaaaaaa", "T1", none, "pending", 0⟩
      "cccccccccccccccccccccccc"
      [⟨"cccccccccccccccccccccccc", "aaaaaaaaaaaaaaaaaaaaaaaa", "T1", none, "pending", 0⟩]
      rfl (by decide)).2.1,
   (c1_ownership_isolation_amended ⟨"bbbbbbbbbbbbbbbbbbbbbbbb", "B", "b@x.com"⟩
      ⟨"cccccccccccccccccccccccc", "aaaaaaaaaaaaaaaaaaaaaaaa", "T1", none, "pending", 0⟩
      "cccccccccccccccccccccccc"
      [⟨"cccccccccccccccccccccccc", "aaaaaaaaaaaaaaaaaaaaaaaa", "T1", none, "pending", 0⟩]
      rfl (by decide)).2.2.2⟩

/-- Claim C2 counterexample: an id string that names no task does not
always produce the 404 error — a string that fails to cast to an
ObjectId makes the find-by-id throw, and the catch-all converts that
into a 500 Server error response instead. -/
theorem c2_counterexample :
    getTaskById ⟨"bbbbbbbbbbbbbbbbbbbbbbbb", "B", "b@x.com"⟩ "x" ([] : List Task)
      = Resp.err 500 "Server error" (some [castErrTask "x"])
    ∧ (Resp.err 500 "Server error" (some [castErrTask "x"]) : Resp Task)
        ≠ Resp.err 404 "Task not found or not authorized" none := by decide

/-- Claim C2, amended: get-by-id responds 200 with the task exactly
when the id string casts to a well-formed ObjectId, a task with that
id exists, and its owner is the acting user; a well-formed id naming
no task, and a task of another owner, produce the identical 404
not-found-or-not-authorized error; an id string that fails the cast
produces a 500 Server error instead. -/
theorem c2_get_by_id_amended (user : SafeUser) (idStr : String) (store : List Task) :
    (∀ t, getTaskById user idStr store = Resp.ok 200 t "Task retrieved successfully"
      ↔ (isValidObjectId idStr = true
          ∧ store.find? (fun x => x.id == idStr) = some t
          ∧ t.user = user.id))
    ∧ (isValidObjectId idStr = true →
        (store.find? (fun x => x.id == idStr)).elim True (fun t => t.user ≠ user.id) →
        getTaskById user idStr store = Resp.err 404 "Task not found or not authorized" none)
    ∧ (isValidObjectId idStr = false →
        getTaskById user idStr store = Resp.err 500 "Server error" (some [castErrTask idStr])) := by
  cases hv : isValidObjectId idStr with
  | false =>
    refine ⟨?_, ?_, fun _ => by simp [getTaskById, taskFindById, hv]⟩
    · intro t
      simp [getTaskById, taskFindById, hv]
    · intro h
      simp [hv] at h
  | true =>
    refine ⟨?_, ?_, fun h => by simp [hv] at h⟩
    · intro t
      cases hf : store.find? (fun x => x.id == idStr) with
      | none => simp [getTaskById, taskFindById, hv, hf]
      | some t0 =>
        cases hb : (t0.user == user.id) with
        | false =>
          simp only [getTaskById, taskFindById, hv, if_true, hf, hb]
          constructor
          · intro h
            cases h
          · rintro ⟨-, ho, hu⟩
            have : t0 = t := by injection ho
            subst this
            rw [hu] at hb
            simp at hb
        | true =>
          simp only [getTaskById, taskFindById, hv, if_true, hf, hb]
          constructor
          · intro h
            have ht0 : t0 = t := by
              injection h with h1 h2 h3
            subst ht0
            exact ⟨trivial, rfl, by simpa using hb⟩
          · rintro ⟨-, ho, -⟩
            have : t0 = t := by injection ho
            subst this
            rfl
    · intro _ hne
      cases hf : store.find? (fun x => x.id == idStr) with
      | none => simp [getTaskById, taskFindById, hv, hf]
      | some t0 =>
        rw [hf] at hne
        have hb : (t0.user == user.id) = false := by
          simp [Option.elim] at hne
          simp [hne]
        simp [getTaskById, taskFindById, hv, hf, hb]

/-- Claim C2 witness: the amended theorem applied to the success case
on a one-task store and to the malformed-id case. -/
theorem c2_get_by_id_amended_witness :
    getTaskById ⟨"aaaaaaaaaaaaaaaaaaaaaaaa", "A", "a@x.com"⟩ "cccccccccccccccccccccccc"
        [⟨"cccccccccccccccccccccccc", "aaaaaaaaaaaaaaaaaaaaaaaa", "T1", none, "pending", 0⟩]
      = Resp.ok 200 ⟨"cccccccccccccccccccccccc", "aaaaaaaaaaaaaaaaaaaaaaaa", "T1", none, "pending", 0⟩
          "Task retrieved successfully"
    ∧ getTaskById ⟨"aaaaaaaaaaaaaaaaaaaaaaaa", "A", "a@x.com"⟩ "nope" ([] : List Task)
      = Resp.err 500 "Server error" (some [castErrTask "nope"]) :=
  ⟨((c2_get_by_id_amended ⟨"aaaaaaaaaaaaaaaaaaaaaaaa", "A", "a@x.com"⟩ "cccccccccccccccccccccccc"
      [⟨"cccccccccccccccccccccccc", "aaaaaaaaaaaaaaaaaaaaaaaa", "T1", none, "pending", 0⟩]).1
      ⟨"cccccccccccccccccccccccc", "aaaaaaaaaaaaaaaaaaaaaaaa", "T1", none, "pending", 0⟩).mpr
      ⟨by decide, rfl, rfl⟩,
   (c2_get_by_id_amended ⟨"aaaaaaaaaaaaaaaaaaaaaaaa", "A", "a@x.com"⟩ "nope"
      ([] : List Task)).2.2 (by decide)⟩

/-- Claim C3 counterexample: a request whose token verifies
cryptographically but embeds an id matching no stored user is a fourth
outcome — the middleware attaches an empty user value and still
invokes the downstream handler, rather than attaching the user record
the claim promises. -/
theorem c3_counterexample :
    protect ⟨some "s"⟩ 1 ([] : List User)
        (some ("Bearer", some (TokenVal.valid ⟨"aaaaaaaaaaaaaaaaaaaaaaaa", "s", 0, 100⟩)))
      = ProtectResult.proceed none
    ∧ jwtVerify (some (TokenVal.valid ⟨"aaaaaaaaaaaaaaaaaaaaaaaa", "s", 0, 100⟩))
        (some "s") 1
      = some "aaaaaaaaaaaaaaaaaaaaaaaa" := by decide

/-- Claim C3, amended: the middleware fails with the no-token error
exactly when no Authorization header with a Bearer scheme is present;
it fails with the token-failed error exactly when such a header is
present but the token does not verify, or verifies to an embedded id
that is not a well-formed store id (the cast error is caught by the
same handler); in every remaining case it attaches the lookup result
for the embedded id — the stored record with the password excluded
when one exists, an empty value otherwise — and invokes the
downstream handler. -/
theorem c3_protect_amended (cfg : Config) (now : Nat) (store : List User)
    (hdr : Option (String × Option TokenVal)) :
    (protect cfg now store hdr = ProtectResult.err 401 "Not authorized, no token"
      ↔ bearerHeaderPresent hdr = false)
    ∧ (protect cfg now store hdr = ProtectResult.err 401 "Not authorized, token failed"
      ↔ bearerHeaderPresent hdr = true ∧
          (jwtVerify (headerTokenWord hdr) cfg.jwtSecret now = none ∨
            ∃ id, jwtVerify (headerTokenWord hdr) cfg.jwtSecret now = some id
              ∧ isValidObjectId id = false))
    ∧ (∀ id, bearerHeaderPresent hdr = true →
        jwtVerify (headerTokenWord hdr) cfg.jwtSecret now = some id →
        isValidObjectId id = true →
        protect cfg now store hdr
          = ProtectResult.proceed ((store.find? (fun u => u.id == id)).map toSafeUser)) := by
  cases hdr with
  | none =>
    refine ⟨by simp [protect, bearerHeaderPresent], ?_, ?_⟩
    · simp [protect, bearerHeaderPresent]
    · intro id hbp
      simp [bearerHeaderPresent] at hbp
  | some pr =>
    obtain ⟨scheme, tokWord⟩ := pr
    cases hbs : startsWithBearer scheme with
    | false =>
      refine ⟨by simp [protect, bearerHeaderPresent, hbs], ?_, ?_⟩
      · simp [protect, bearerHeaderPresent, hbs]
      · intro id hbp
        simp [bearerHeaderPresent, hbs] at hbp
    | true =>
      cases hjv : jwtVerify tokWord cfg.jwtSecret now with
      | none =>
        refine ⟨?_, ?_, ?_⟩
        · simp [protect, bearerHeaderPresent, hbs, hjv]
        · simp [protect, bearerHeaderPresent, headerTokenWord, hbs, hjv]
        · intro id _ hjv2
          rw [headerTokenWord] at hjv2
          rw [hjv] at hjv2
          cases hjv2
      | some id0 =>
        cases hvo : isValidObjectId id0 with
        | false =>
          refine ⟨?_, ?_, ?_⟩
          · simp [protect, bearerHeaderPresent, hbs, hjv, userFindById, hvo]
          · simp only [protect, bearerHeaderPresent, headerTokenWord, hbs, hjv,
              userFindById, hvo, Bool.false_eq_true, if_false]
            constructor
            · intro _
              exact ⟨trivial, Or.inr ⟨id0, rfl, hvo⟩⟩
            · intro _
              rfl
          · intro id _ hjv2 hvv
            rw [headerTokenWord] at hjv2
            rw [hjv] at hjv2
            injection hjv2 with hid
            subst hid
            rw [hvo] at hvv
            cases hvv
        | true =>
          refine ⟨?_, ?_, ?_⟩
          · simp [protect, bearerHeaderPresent, hbs, hjv, userFindById, hvo]
          · simp only [protect, bearerHeaderPresent, headerTokenWord, hbs, hjv,
              userFindById, hvo, if_true]
            constructor
            · intro h
              cases h
            · rintro ⟨-, h | ⟨id, hid, hvi⟩⟩
              · cases h
              · injection hid with hid2
                subst hid2
                rw [hvo] at hvi
                cases hvi
          · intro id _ hjv2 _
            rw [headerTokenWord] at hjv2
            rw [hjv] at hjv2
            injection hjv2 with hid
            subst hid
            simp [protect, hbs, hjv, userFindById, hvo]

/-- Claim C3 witness: the amended theorem applied to a request whose
verified token embeds the id of a stored user, yielding the attached
password-free record. -/
theorem c3_protect_amended_witness :
    protect ⟨some "s"⟩ 1
        [⟨"aaaaaaaaaaaaaaaaaaaaaaaa", "Jo", "jo@x.com",
          PassVal.hashed (PassVal.plain "secret1") 7, false⟩]
        (some ("Bearer", some (TokenVal.valid ⟨"aaaaaaaaaaaaaaaaaaaaaaaa", "s", 0, 100⟩)))
      = ProtectResult.proceed (some ⟨"aaaaaaaaaaaaaaaaaaaaaaaa", "Jo", "jo@x.com"⟩) :=
  ((c3_protect_amended ⟨some "s"⟩ 1
      [⟨"aaaaaaaaaaaaaaaaaaaaaaaa", "Jo", "jo@x.com",
        PassVal.hashed (PassVal.plain "secret1") 7, false⟩]
      (some ("Bearer", some (TokenVal.valid ⟨"aaaaaaaaaaaaaaaaaaaaaaaa", "s", 0, 100⟩)))).2.2
    "aaaaaaaaaaaaaaaaaaaaaaaa" (by decide) (by decide) (by decide)).trans (by decide)

/-- Claim C5, confirmed: an owner update that passes field validation
writes back exactly the merged document — every falsy-or-absent field
keeps its prior value, every truthy supplied field overwrites, and
the owner reference, creation timestamp and id are unchanged. -/
theorem c5_update_frame (actor : SafeUser) (idStr : String) (b : TaskBody)
    (tk : Task) (store : List Task)
    (hfind : taskFindById store idStr = Except.ok (some tk))
    (howner : tk.user = actor.id)
    (hval : updateTaskErrors b = []) :
    updateTask actor idStr b store
      = (Resp.ok 200 (updatedTaskDoc b tk) "Task updated successfully",
         store.map (fun x => if x.id == tk.id then updatedTaskDoc b tk else x))
    ∧ (jsTruthy b.title = false → (updatedTaskDoc b tk).title = tk.title)
    ∧ (jsTruthy b.title = true → (updatedTaskDoc b tk).title = b.title.getD "")
    ∧ (jsTruthy b.description = false → (updatedTaskDoc b tk).description = tk.description)
    ∧ (jsTruthy b.description = true → (updatedTaskDoc b tk).description = b.description)
    ∧ (jsTruthy b.status = false → (updatedTaskDoc b tk).status = tk.status)
    ∧ (jsTruthy b.status = true → (updatedTaskDoc b tk).status = b.status.getD "")
    ∧ (updatedTaskDoc b tk).user = tk.user
    ∧ (updatedTaskDoc b tk).createdAt = tk.createdAt
    ∧ (updatedTaskDoc b tk).id = tk.id := by
  unfold taskFindById at hfind
  split at hfind
  case isFalse => cases hfind
  case isTrue hv =>
    have hfq : store.find? (fun x => x.id == idStr) = some tk := by
      injection hfind
    have hbeq : (tk.user == actor.id) = true := by simp [howner]
    refine ⟨?_, ?_, ?_, ?_, ?_, ?_, ?_, rfl, rfl, rfl⟩
    · simp [updateTask, hval, taskFindById, hv, hfq, hbeq]
    · intro h; simp [updatedTaskDoc, jsOrStr, h]
    · intro h; simp [updatedTaskDoc, jsOrStr, h]
    · intro h; simp [updatedTaskDoc, jsOrOpt, h]
    · intro h; simp [updatedTaskDoc, jsOrOpt, h]
    · intro h; simp [updatedTaskDoc, jsOrStr, h]
    · intro h; simp [updatedTaskDoc, jsOrStr, h]

/-- Claim C5 witness: an owner update supplying only a status leaves
title and description at their prior values and keeps owner, creation
timestamp and id. -/
theorem c5_update_frame_witness :
    updateTask ⟨"aaaaaaaaaaaaaaaaaaaaaaaa", "A", "a@x.com"⟩ "cccccccccccccccccccccccc"
        ⟨none, none, some "completed", none⟩
        [⟨"cccccccccccccccccccccccc", "aaaaaaaaaaaaaaaaaaaaaaaa", "T1", some "d", "pending", 3⟩]
      = (Resp.ok 200
          ⟨"cccccccccccccccccccccccc", "aaaaaaaaaaaaaaaaaaaaaaaa", "T1", some "d", "completed", 3⟩
          "Task updated successfully",
         [⟨"cccccccccccccccccccccccc", "aaaaaaaaaaaaaaaaaaaaaaaa", "T1", some "d", "completed", 3⟩]) :=
  ((c5_update_frame ⟨"aaaaaaaaaaaaaaaaaaaaaaaa", "A", "a@x.com"⟩ "cccccccccccccccccccccccc"
      ⟨none, none, some "completed", none⟩
      ⟨"cccccccccccccccccccccccc", "aaaaaaaaaaaaaaaaaaaaaaaa", "T1", some "d", "pending", 3⟩
      [⟨"cccccccccccccccccccccccc", "aaaaaaaaaaaaaaaaaaaaaaaa", "T1", some "d", "pending", 3⟩]
      rfl rfl (by decide)).1).trans (by decide)

/-- Claim C6, confirmed: a creation that passes validation stores a
document whose owner is the acting user of the verified token — the
result is invariant under any owner field smuggled into the request
body — and an absent status defaults to pending. -/
theorem c6_create_owner_forced (actor : SafeUser) (b : TaskBody) (newId : String)
    (now : Nat) (store : List Task)
    (hval : createTaskErrors b = []) :
    createTask actor b newId now store
      = (Resp.ok 201 (createdTaskDoc actor b newId now) "Task created successfully",
         store ++ [createdTaskDoc actor b newId now])
    ∧ (createdTaskDoc actor b newId now).user = actor.id
    ∧ (b.status = none → (createdTaskDoc actor b newId now).status = "pending")
    ∧ (∀ alt, createTask actor { b with user := alt } newId now store
        = createTask actor b newId now store) := by
  refine ⟨by simp [createTask, hval], rfl, ?_, fun alt => rfl⟩
  intro h
  simp [createdTaskDoc, jsOrStr, h, jsTruthy]

/-- Claim C6 witness: a creation whose body smuggles another user id
in an owner field and omits status stores the task under the acting
user with status pending. -/
theorem c6_create_owner_forced_witness :
    createTask ⟨"aaaaaaaaaaaaaaaaaaaaaaaa", "A", "a@x.com"⟩
        ⟨some "T1", none, none, some "bbbbbbbbbbbbbbbbbbbbbbbb"⟩
        "cccccccccccccccccccccccc" 9 []
      = (Resp.ok 201
          ⟨"cccccccccccccccccccccccc", "aaaaaaaaaaaaaaaaaaaaaaaa", "T1", none, "pending", 9⟩
          "Task created successfully",
         [⟨"cccccccccccccccccccccccc", "aaaaaaaaaaaaaaaaaaaaaaaa", "T1", none, "pending", 9⟩]) :=
  ((c6_create_owner_forced ⟨"aaaaaaaaaaaaaaaaaaaaaaaa", "A", "a@x.com"⟩
      ⟨some "T1", none, none, some "bbbbbbbbbbbbbbbbbbbbbbbb"⟩
      "cccccccccccccccccccccccc" 9 [] (by decide)).1).trans (by decide)

/-- Claim C7, confirmed: a login naming an email registered to no user
and a login naming a registered email with a password that does not
match the stored hash produce literally the same response — the same
401 envelope with the generic invalid-credentials message and no
distinguishing field. -/
theorem c7_login_indistinguishable (cfg : Config) (now : Nat) (store : List User)
    (e1 p1 e2 p2 : String) (u : User)
    (h1e : e1 ≠ "") (h1p : p1 ≠ "") (h2e : e2 ≠ "") (h2p : p2 ≠ "")
    (hmiss : store.find? (fun v => v.email == e1) = none)
    (hfound : store.find? (fun v => v.email == e2) = some u)
    (hbad : bcryptCompare p2 u.password = false) :
    loginUser cfg now store ⟨some e1, some p1⟩
      = Resp.err 401 "Invalid email or password" none
    ∧ loginUser cfg now store ⟨some e2, some p2⟩
      = Resp.err 401 "Invalid email or password" none
    ∧ loginUser cfg now store ⟨some e1, some p1⟩
      = loginUser cfg now store ⟨some e2, some p2⟩ := by
  have ha : loginUser cfg now store ⟨some e1, some p1⟩
      = Resp.err 401 "Invalid email or password" none := by
    simp [loginUser, jsTruthy, h1e, h1p, hmiss]
  have hb : loginUser cfg now store ⟨some e2, some p2⟩
      = Resp.err 401 "Invalid email or password" none := by
    simp [loginUser, jsTruthy, h2e, h2p, hfound, hbad]
  exact ⟨ha, hb, ha.trans hb.symm⟩

/-- Claim C7 witness: a concrete one-user store where a login with an
unknown email and a login with the stored email but the wrong password
return the identical generic error. -/
theorem c7_login_indistinguishable_witness :
    loginUser ⟨some "s"⟩ 0
        [⟨"aaaaaaaaaaaaaaaaaaaaaaaa", "Jo", "jo@x.com",
          PassVal.hashed (PassVal.plain "secret1") 7, false⟩]
        ⟨some "nobody@x.com", some "whatever"⟩
      = Resp.err 401 "Invalid email or password" none
    ∧ loginUser ⟨some "s"⟩ 0
        [⟨"aaaaaaaaaaaaaaaaaaaaaaaa", "Jo", "jo@x.com",
          PassVal.hashed (PassVal.plain "secret1") 7, false⟩]
        ⟨some "jo@x.com", some "wrongpass"⟩
      = Resp.err 401 "Invalid email or password" none :=
  ⟨(c7_login_indistinguishable ⟨some "s"⟩ 0
      [⟨"aaaaaaaaaaaaaaaaaaaaaaaa", "Jo", "jo@x.com",
        PassVal.hashed (PassVal.plain "secret1") 7, false⟩]
      "nobody@x.com" "whatever" "jo@x.com" "wrongpass"
      ⟨"aaaaaaaaaaaaaaaaaaaaaaaa", "Jo", "jo@x.com",
        PassVal.hashed (PassVal.plain "secret1") 7, false⟩
      (by decide) (by decide) (by decide) (by decide) rfl rfl (by decide)).1,
   (c7_login_indistinguishable ⟨some "s"⟩ 0
      [⟨"aaaaaaaaaaaaaaaaaaaaaaaa", "Jo", "jo@x.com",
        PassVal.hashed (PassVal.plain "secret1") 7, false⟩]
      "nobody@x.com" "whatever" "jo@x.com" "wrongpass"
      ⟨"aaaaaaaaaaaaaaaaaaaaaaaa", "Jo", "jo@x.com",
        PassVal.hashed (PassVal.plain "secret1") 7, false⟩
      (by decide) (by decide) (by decide) (by decide) rfl rfl (by decide)).2.1⟩

/-- Claim C8 counterexample: with the signing secret unset, the issuer
falls back to the hardcoded default, but the verification step in the
middleware uses the raw environment value and throws — the token
returned by a successful registration then fails to verify, and the
middleware rejects it with the token-failed error. -/
theorem c8_counterexample :
    (registerUser ⟨none⟩ 0 [] ⟨some "Jo", some "jo@x.com", some "secret1"⟩
        "aaaaaaaaaaaaaaaaaaaaaaaa" 7).1
      = Resp.ok 201
          ⟨"aaaaaaaaaaaaaaaaaaaaaaaa", "Jo", "jo@x.com",
            ⟨"aaaaaaaaaaaaaaaaaaaaaaaa", "default_secret", 0, 2592000⟩⟩
          "User registered successfully"
    ∧ jwtVerify
        (some (TokenVal.valid ⟨"aaaaaaaaaaaaaaaaaaaaaaaa", "default_secret", 0, 2592000⟩))
        none 0
      = none
    ∧ protect ⟨none⟩ 0
        ((registerUser ⟨none⟩ 0 [] ⟨some "Jo", some "jo@x.com", some "secret1"⟩
          "aaaaaaaaaaaaaaaaaaaaaaaa" 7).2)
        (some ("Bearer",
          some (TokenVal.valid ⟨"aaaaaaaaaaaaaaaaaaaaaaaa", "default_secret", 0, 2592000⟩)))
      = ProtectResult.err 401 "Not authorized, token failed" := by decide

/-- Claim C8, amended: in every configuration whose signing secret is
set non-empty, the token a successful registration returns verifies
under the middleware verification step with that same configuration
and decodes to the id of the user the registration created; when the
secret is unset the issuer falls back to the hardcoded default but
the verification step has no fallback and rejects every token. -/
theorem c8_token_roundtrip_amended (cfg : Config) (s : String)
    (hs : cfg.jwtSecret = some s) (hne : s ≠ "")
    (now : Nat) (store : List User) (b : RegisterBody) (newId : String) (salt : Nat)
    (hval : registerErrors b = [])
    (hnew : store.find? (fun u => u.email == b.email.getD "") = none) :
    (registerUser cfg now store b newId salt).1
      = Resp.ok 201
          ⟨newId, b.name.getD "", b.email.getD "", generateToken cfg now newId⟩
          "User registered successfully"
    ∧ jwtVerify (some (TokenVal.valid (generateToken cfg now newId))) cfg.jwtSecret now
      = some newId
    ∧ ((registerUser cfg now store b newId salt).2).any (fun u => u.id == newId) = true := by
  have hnodup : store.any
      (fun v => v.email == b.email.getD "" && v.id != newId) = false := by
    rw [List.any_eq_false]
    intro v hv
    have := List.find?_eq_none.mp hnew v hv
    simp only [Bool.not_eq_true] at this
    simp [this]
  have hsecret :
      (match cfg.jwtSecret with
        | some s2 => if s2 != "" then s2 else "default_secret"
        | none => "default_secret") = s := by
    rw [hs]
    simp [hne]
  have hverify : jwtVerify (some (TokenVal.valid (generateToken cfg now newId)))
      cfg.jwtSecret now = some newId := by
    rw [hs]
    simp only [jwtVerify, generateToken, hsecret]
    have hsne : (s == "") = false := by simp [hne]
    rw [hsne]
    simp [thirtyDays]
  refine ⟨?_, hverify, ?_⟩
  · cases hsave : (store.any (fun v => v.id == newId)) with
    | false => simp [registerUser, hval, hnew, userSave, hnodup, userPreSave, hsave]
    | true => simp [registerUser, hval, hnew, userSave, hnodup, userPreSave, hsave]
  · cases hsave : (store.any (fun v => v.id == newId)) with
    | false =>
      simp [registerUser, hval, hnew, userSave, hnodup, userPreSave, hsave]
    | true =>
      simp only [registerUser, hval, List.isEmpty_nil, hnew, userSave, hnodup,
        Bool.false_eq_true, if_false, userPreSave, if_true, hsave]
      rw [List.any_eq_true] at hsave ⊢
      obtain ⟨v, hv, hvid⟩ := hsave
      exact ⟨if v.id == newId then
          { id := newId, name := b.name.getD "", email := b.email.getD ""
            password := PassVal.hashed (PassVal.plain (b.password.getD "")) salt
            passwordModified := false }
        else v,
        List.mem_map_of_mem _ hv, by simp [hvid]⟩

/-- Claim C8 witness: with the secret set, a freshly issued
registration token verifies to the registered id. -/
theorem c8_token_roundtrip_amended_witness :
    jwtVerify (some (TokenVal.valid (generateToken ⟨some "s"⟩ 0 "aaaaaaaaaaaaaaaaaaaaaaaa")))
        (some "s") 0
      = some "aaaaaaaaaaaaaaaaaaaaaaaa" :=
  (c8_token_roundtrip_amended ⟨some "s"⟩ "s" rfl (by decide) 0 []
    ⟨some "Jo", some "jo@x.com", some "secret1"⟩ "aaaaaaaaaaaaaaaaaaaaaaaa" 7
    (by decide) rfl).2.1

/-! Helper lemmas about the document the profile update assigns. -/

theorem profileUpdatedUser_id (b : ProfileBody) (u : User) :
    (profileUpdatedUser b u).id = u.id := by
  unfold profileUpdatedUser
  cases jsTruthy b.password <;> simp

theorem profileUpdatedUser_email (b : ProfileBody) (u : User) :
    (profileUpdatedUser b u).email = jsOrStr b.email u.email := by
  unfold profileUpdatedUser
  cases jsTruthy b.password <;> simp

/-- Claim C9, confirmed: the password persisted by a successful
registration is the salted hash of the supplied plaintext and differs
from it; the password persisted by a profile update that supplies a
password is likewise the salted hash of the new plaintext; and a save
whose password path is unmodified (a profile update without a
password) leaves the stored password value untouched, with no
re-hashing. -/
theorem c9_password_hashing (cfg : Config) (now salt : Nat)
    (store : List User) (b : RegisterBody) (newId : String)
    (hval : registerErrors b = [])
    (hnew : store.find? (fun u => u.email == b.email.getD "") = none)
    (hfresh : store.any (fun v => v.id == newId) = false)
    (store2 : List User) (actingId : String) (pb : ProfileBody) (u0 : User)
    (hfind : userFindById store2 actingId = Except.ok (some u0))
    (hperr : profileErrors pb = [])
    (hnodup : store2.any
      (fun v => v.email == jsOrStr pb.email u0.email && v.id != u0.id) = false) :
    ((registerUser cfg now store b newId salt).2
        = store ++ [⟨newId, b.name.getD "", b.email.getD "",
            PassVal.hashed (PassVal.plain (b.password.getD "")) salt, false⟩]
      ∧ PassVal.hashed (PassVal.plain (b.password.getD "")) salt
          ≠ PassVal.plain (b.password.getD ""))
    ∧ ((updateUserProfile cfg now store2 actingId pb salt).2
        = store2.map (fun v =>
            if v.id == u0.id then userPreSave salt (profileUpdatedUser pb u0) else v)
      ∧ (jsTruthy pb.password = true →
          (userPreSave salt (profileUpdatedUser pb u0)).password
            = PassVal.hashed (PassVal.plain (pb.password.getD "")) salt
          ∧ (userPreSave salt (profileUpdatedUser pb u0)).password
            ≠ PassVal.plain (pb.password.getD ""))
      ∧ (jsTruthy pb.password = false → u0.passwordModified = false →
          (userPreSave salt (profileUpdatedUser pb u0)).password = u0.password)) := by
  have hrnodup : store.any
      (fun v => v.email == b.email.getD "" && v.id != newId) = false := by
    rw [List.any_eq_false]
    intro v hv
    have := List.find?_eq_none.mp hnew v hv
    simp only [Bool.not_eq_true] at this
    simp [this]
  refine ⟨⟨?_, by simp⟩, ?_, ?_, ?_⟩
  · simp [registerUser, hval, hnew, userSave, hrnodup, userPreSave, hfresh, bcryptHash]
  · unfold userFindById at hfind
    split at hfind
    case isFalse => cases hfind
    case isTrue hvid =>
      have hfq : store2.find? (fun u => u.id == actingId) = some u0 := by
        injection hfind
      have hmem : u0 ∈ store2 := List.mem_of_find?_eq_some hfq
      have hdupP : store2.any
          (fun v => v.email == (profileUpdatedUser pb u0).email
            && v.id != (profileUpdatedUser pb u0).id) = false := by
        have hfun : (fun v : User => v.email == (profileUpdatedUser pb u0).email
            && v.id != (profileUpdatedUser pb u0).id)
            = (fun v : User => v.email == jsOrStr pb.email u0.email && v.id != u0.id) := by
          funext v
          rw [profileUpdatedUser_email, profileUpdatedUser_id]
        rw [hfun]
        exact hnodup
      have hrepl : store2.any (fun v => v.id == (profileUpdatedUser pb u0).id) = true := by
        rw [profileUpdatedUser_id]
        exact List.any_eq_true.mpr ⟨u0, hmem, by simp⟩
      have hfun2 : (fun v : User =>
            if v.id == (profileUpdatedUser pb u0).id then
              userPreSave salt (profileUpdatedUser pb u0) else v)
          = (fun v : User =>
            if v.id == u0.id then userPreSave salt (profileUpdatedUser pb u0) else v) := by
        funext v
        rw [profileUpdatedUser_id]
      simp only [updateUserProfile, userFindById, hvid, if_true, hfq, hperr,
        List.isEmpty_nil, userSave, hdupP, Bool.false_eq_true, if_false, hrepl]
      rw [hfun2]
  · intro h
    have hpw : (userPreSave salt (profileUpdatedUser pb u0)).password
        = PassVal.hashed (PassVal.plain (pb.password.getD "")) salt := by
      simp [userPreSave, profileUpdatedUser, h, bcryptHash]
    exact ⟨hpw, by rw [hpw]; simp⟩
  · intro h hmod
    simp [userPreSave, profileUpdatedUser, h, hmod]

/-- Claim C9 witness: a concrete registration stores the salted hash,
and a concrete profile update without a password leaves the stored
hash unchanged. -/
theorem c9_password_hashing_witness :
    (registerUser ⟨some "s"⟩ 0 [] ⟨some "Jo", some "jo@x.com", some "secret1"⟩
        "aaaaaaaaaaaaaaaaaaaaaaaa" 7).2
      = [⟨"aaaaaaaaaaaaaaaaaaaaaaaa", "Jo", "jo@x.com",
          PassVal.hashed (PassVal.plain "secret1") 7, false⟩]
    ∧ (userPreSave 9 (profileUpdatedUser ⟨some "Joan", none, none⟩
        ⟨"aaaaaaaaaaaaaaaaaaaaaaaa", "Jo", "jo@x.com",
          PassVal.hashed (PassVal.plain "secret1") 7, false⟩)).password
      = PassVal.hashed (PassVal.plain "secret1") 7 :=
  ⟨((c9_password_hashing ⟨some "s"⟩ 0 7 [] ⟨some "Jo", some "jo@x.com", some "secret1"⟩
      "aaaaaaaaaaaaaaaaaaaaaaaa" (by decide) rfl rfl
      [⟨"aaaaaaaaaaaaaaaaaaaaaaaa", "Jo", "jo@x.com",
        PassVal.hashed (PassVal.plain "secret1") 7, false⟩]
      "aaaaaaaaaaaaaaaaaaaaaaaa" ⟨some "Joan", none, none⟩
      ⟨"aaaaaaaaaaaaaaaaaaaaaaaa", "Jo", "jo@x.com",
        PassVal.hashed (PassVal.plain "secret1") 7, false⟩
      rfl (by decide) (by decide)).1.1).trans (by decide),
   (c9_password_hashing ⟨some "s"⟩ 0 7 [] ⟨some "Jo", some "jo@x.com", some "secret1"⟩
      "aaaaaaaaaaaaaaaaaaaaaaaa" (by decide) rfl rfl
      [⟨"aaaaaaaaaaaaaaaaaaaaaaaa", "Jo", "jo@x.com",
        PassVal.hashed (PassVal.plain "secret1") 7, false⟩]
      "aaaaaaaaaaaaaaaaaaaaaaaa" ⟨some "Joan", none, none⟩
      ⟨"aaaaaaaaaaaaaaaaaaaaaaaa", "Jo", "jo@x.com",
        PassVal.hashed (PassVal.plain "secret1") 7, false⟩
      rfl (by decide) (by decide)).2.2.2 rfl rfl⟩

/-- Claim C10, confirmed: the profile update runs no duplicate-email
check — a supplied email already registered to another user is
rejected only by the unique index at save time, which the catch-all
surfaces as a 500 Server error envelope carrying the underlying
duplicate-key message, while registration with the same situation
returns its dedicated 400 conflict error; the two responses differ. -/
theorem c10_profile_duplicate_email (cfg : Config) (now salt : Nat)
    (store : List User) (actingId : String) (pb : ProfileBody) (u0 : User)
    (hfind : userFindById store actingId = Except.ok (some u0))
    (hperr : profileErrors pb = [])
    (hdup : store.any
      (fun v => v.email == jsOrStr pb.email u0.email && v.id != u0.id) = true)
    (rb : RegisterBody) (newId : String) (w : User)
    (hrval : registerErrors rb = [])
    (hrdup : store.find? (fun u => u.email == rb.email.getD "") = some w) :
    updateUserProfile cfg now store actingId pb salt
      = (Resp.err 500 "Server error"
          (some [dupKeyErrorMessage (jsOrStr pb.email u0.email)]), store)
    ∧ registerUser cfg now store rb newId salt
      = (Resp.err 400 "Email is already registered" none, store)
    ∧ (Resp.err 500 "Server error"
        (some [dupKeyErrorMessage (jsOrStr pb.email u0.email)]) : Resp AuthPayload)
      ≠ Resp.err 400 "Email is already registered" none := by
  refine ⟨?_, by simp [registerUser, hrval, hrdup], by simp⟩
  unfold userFindById at hfind
  split at hfind
  case isFalse => cases hfind
  case isTrue hvid =>
    have hfq : store.find? (fun u => u.id == actingId) = some u0 := by
      injection hfind
    have hdupP : store.any
        (fun v => v.email == (profileUpdatedUser pb u0).email
          && v.id != (profileUpdatedUser pb u0).id) = true := by
      have hfun : (fun v : User => v.email == (profileUpdatedUser pb u0).email
          && v.id != (profileUpdatedUser pb u0).id)
          = (fun v : User => v.email == jsOrStr pb.email u0.email && v.id != u0.id) := by
        funext v
        rw [profileUpdatedUser_email, profileUpdatedUser_id]
      rw [hfun]
      exact hdup
    simp only [updateUserProfile, userFindById, hvid, if_true, hfq, hperr,
      List.isEmpty_nil, userSave, hdupP, if_true]
    rw [profileUpdatedUser_email]

/-- Claim C10 witness: a two-user store where the acting user updates
the email to the other stored email — a 500 with the duplicate-key
message — while registering that email returns the 400 conflict. -/
theorem c10_profile_duplicate_email_witness :
    updateUserProfile ⟨some "s"⟩ 0
        [⟨"aaaaaaaaaaaaaaaaaaaaaaaa", "A", "a@x.com",
            PassVal.hashed (PassVal.plain "secret1") 7, false⟩,
         ⟨"bbbbbbbbbbbbbbbbbbbbbbbb", "B", "b@x.com",
            PassVal.hashed (PassVal.plain "secret2") 7, false⟩]
        "aaaaaaaaaaaaaaaaaaaaaaaa" ⟨none, some "b@x.com", none⟩ 7
      = (Resp.err 500 "Server error" (some [dupKeyErrorMessage "b@x.com"]),
         [⟨"aaaaaaaaaaaaaaaaaaaaaaaa", "A", "a@x.com",
            PassVal.hashed (PassVal.plain "secret1") 7, false⟩,
          ⟨"bbbbbbbbbbbbbbbbbbbbbbbb", "B", "b@x.com",
            PassVal.hashed (PassVal.plain "secret2") 7, false⟩]) :=
  ((c10_profile_duplicate_email ⟨some "s"⟩ 0 7
      [⟨"aaaaaaaaaaaaaaaaaaaaaaaa", "A", "a@x.com",
          PassVal.hashed (PassVal.plain "secret1") 7, false⟩,
       ⟨"bbbbbbbbbbbbbbbbbbbbbbbb", "B", "b@x.com",
          PassVal.hashed (PassVal.plain "secret2") 7, false⟩]
      "aaaaaaaaaaaaaaaaaaaaaaaa" ⟨none, some "b@x.com", none⟩
      ⟨"aaaaaaaaaaaaaaaaaaaaaaaa", "A", "a@x.com",
        PassVal.hashed (PassVal.plain "secret1") 7, false⟩
      rfl (by decide) (by decide)
      ⟨some "Jo", some "b@x.com", some "secret1"⟩ "cccccccccccccccccccccccc"
      ⟨"bbbbbbbbbbbbbbbbbbbbbbbb", "B", "b@x.com",
        PassVal.hashed (PassVal.plain "secret2") 7, false⟩
      (by decide) rfl).1).trans (by decide)

end App
